import Mathlib

set_option maxHeartbeats 1000000
set_option maxRecDepth 100000

/-!
Shallow embedding of the `exemplars` crate (`src/lib.rs`).

The crate defines a trait `Exemplars` whose required method `exemplars()`
returns an iterator of example values and whose provided method `exemplar()`
returns the first of them, panicking when the iterator is empty.  Every
implementation in the crate produces a finite ordered sequence, so the
iterator is modelled as a `List`; the panic in `exemplar()` is modelled by
returning `Option`.
-/

/-- Embedding of the trait `Exemplars` from `src/lib.rs`: the required
method `exemplars()` ("Iterate over all available examples. Must return at
least one value."), modelled as a finite ordered sequence. -/
class Exemplars (α : Type) where
  exemplars : List α

/-- Embedding of the provided method `Exemplars::exemplar`: it takes the
first element of `exemplars()` via `Iterator::next`, and `expect`s it, so a
panic on the empty sequence is modelled as `none`.  It is a plain
definition, so no implementation can override it, matching the source where
no `impl` block overrides the default method. -/
def Exemplars.exemplar (α : Type) [Exemplars α] : Option α :=
  (Exemplars.exemplars (α := α)).head?

/-- Embedding of `impl Exemplars for ()`: the singleton sequence `[()]`. -/
instance : Exemplars Unit where
  exemplars := [()]

/-- The sequence produced by the macro-generated integer impls: the Rust
inclusive range `1..=max`, i.e. the list `[1, 2, ..., max]`. -/
def numberExemplars (max : Nat) : List Nat :=
  List.range' 1 max

/-- Carrier for a fixed-width Rust integer type whose maximum value is
`max`.  The crate only ever produces the values `1..=max`, which are
non-negative even for the signed types, so a `Nat` payload together with
the type-level bound is a faithful carrier for each of the eleven
integer types the macro `impl_for_number_types!` is instantiated at. -/
structure NumTy (max : Nat) where
  val : Nat
deriving DecidableEq

/-- Embedding of the macro-generated `impl Exemplars for $t`, whose body is
the range `1..=Self::MAX`. -/
instance (max : Nat) : Exemplars (NumTy max) where
  exemplars := (numberExemplars max).map NumTy.mk

/-- Maximum of Rust `usize` on a 64-bit target. -/
def usizeMAX : Nat := 2 ^ 64 - 1

/-- Maximum of Rust `u8`. -/
def u8MAX : Nat := 2 ^ 8 - 1

/-- Maximum of Rust `u16`. -/
def u16MAX : Nat := 2 ^ 16 - 1

/-- Maximum of Rust `u32`. -/
def u32MAX : Nat := 2 ^ 32 - 1

/-- Maximum of Rust `u64`. -/
def u64MAX : Nat := 2 ^ 64 - 1

/-- Maximum of Rust `u128`. -/
def u128MAX : Nat := 2 ^ 128 - 1

/-- Maximum of Rust `i8`. -/
def i8MAX : Nat := 2 ^ 7 - 1

/-- Maximum of Rust `i16`. -/
def i16MAX : Nat := 2 ^ 15 - 1

/-- Maximum of Rust `i32`. -/
def i32MAX : Nat := 2 ^ 31 - 1

/-- Maximum of Rust `i64`. -/
def i64MAX : Nat := 2 ^ 63 - 1

/-- Maximum of Rust `i128`. -/
def i128MAX : Nat := 2 ^ 127 - 1

/-- The eleven integer types `impl_for_number_types!` is invoked at in
`src/lib.rs`, identified by their maximum values:
`usize, u8, u16, u32, u64, u128, i8, i16, i32, i64, i128`. -/
def numberMAXConstants : List Nat :=
  [usizeMAX, u8MAX, u16MAX, u32MAX, u64MAX, u128MAX,
   i8MAX, i16MAX, i32MAX, i64MAX, i128MAX]

/-- Rust `u8` as one of the macro-generated instances. -/
abbrev u8 := NumTy u8MAX

/-- Embedding of `impl<T: Exemplars> Exemplars for Option<T>`:
`T::exemplars().into_iter().map(Some).chain([None])`. -/
instance (α : Type) [Exemplars α] : Exemplars (Option α) where
  exemplars := (Exemplars.exemplars (α := α)).map some ++ [none]

/-- Embedding of `impl Exemplars for alloc::string::String`: the singleton
sequence containing the literal string. -/
instance : Exemplars String where
  exemplars := ["example"]

/-- Embedding of `impl<T: Exemplars> Exemplars for alloc::vec::Vec<T>`:
`T::exemplars().into_iter().map(|x| alloc::vec![x])`.  Rust's `Vec<T>` is a
finite growable sequence, modelled as `List`. -/
instance (α : Type) [Exemplars α] : Exemplars (List α) where
  exemplars := (Exemplars.exemplars (α := α)).map (fun x => [x])

/-- Model of `bigdecimal` 0.3's `BigDecimal`: an arbitrary-precision decimal
stored as a big-integer mantissa (`int_val`) and a base-10 `scale`, denoting
the rational number `int_val * 10 ^ (-scale)`. -/
structure BigDecimal03 where
  int_val : Int
  scale : Int
deriving DecidableEq

/-- The multiplicative identity `<BigDecimal as One>::one()` of
`bigdecimal` 0.3: mantissa 1, scale 0. -/
def BigDecimal03.one : BigDecimal03 := ⟨1, 0⟩

/-- The rational number a `bigdecimal` 0.3 value denotes. -/
def BigDecimal03.toRat (x : BigDecimal03) : ℚ :=
  (x.int_val : ℚ) * (10 : ℚ) ^ (-x.scale)

/-- Model of `bigdecimal` 0.4's `BigDecimal`, identical in representation to
the 0.3 model but an independently versioned type. -/
structure BigDecimal04 where
  int_val : Int
  scale : Int
deriving DecidableEq

/-- The multiplicative identity `<BigDecimal as One>::one()` of
`bigdecimal` 0.4: mantissa 1, scale 0. -/
def BigDecimal04.one : BigDecimal04 := ⟨1, 0⟩

/-- The rational number a `bigdecimal` 0.4 value denotes. -/
def BigDecimal04.toRat (x : BigDecimal04) : ℚ :=
  (x.int_val : ℚ) * (10 : ℚ) ^ (-x.scale)

/-- Model of `rust_decimal::Decimal`: a fixed-point decimal with a signed
96-bit mantissa and a scale in `0..=28`, denoting
`mantissa / 10 ^ scale`. -/
structure Decimal where
  mantissa : Int
  scale : Nat
deriving DecidableEq

/-- The constant `Decimal::ONE` of `rust_decimal`: mantissa 1, scale 0. -/
def Decimal.ONE : Decimal := ⟨1, 0⟩

/-- The rational number a `rust_decimal::Decimal` denotes. -/
def Decimal.toRat (x : Decimal) : ℚ :=
  (x.mantissa : ℚ) / (10 : ℚ) ^ x.scale

/-- Model of `uuid::Uuid`: a 128-bit identifier. -/
structure Uuid where
  val : Nat
  isLt : val < 2 ^ 128

/-- The constant `Uuid::max()` of the `uuid` crate: the UUID with all 128
bits set, i.e. the maximum representable value. -/
def Uuid.max : Uuid :=
  ⟨2 ^ 128 - 1, Nat.sub_lt (Nat.pos_pow_of_pos 128 (by norm_num)) (by norm_num)⟩

/-- Embedding of the feature-gated
`impl Exemplars for ::bigdecimal_03::BigDecimal`:
`[<Self as One>::one()]`. -/
instance : Exemplars BigDecimal03 where
  exemplars := [BigDecimal03.one]

/-- Embedding of the feature-gated
`impl Exemplars for ::bigdecimal_04::BigDecimal`:
`[<Self as One>::one()]`. -/
instance : Exemplars BigDecimal04 where
  exemplars := [BigDecimal04.one]

/-- Embedding of the feature-gated
`impl Exemplars for ::rust_decimal::Decimal`: `[Self::ONE]`. -/
instance : Exemplars Decimal where
  exemplars := [Decimal.ONE]

/-- Embedding of the feature-gated `impl Exemplars for ::uuid::Uuid`:
`[Self::max()]`. -/
instance : Exemplars Uuid where
  exemplars := [Uuid.max]

/-- A trace of `n` successive calls to `exemplar()` for the same type.  The
source functions take no arguments and touch no state, so each call in the
trace is one evaluation of the embedded function. -/
def repeatedCalls (α : Type) [Exemplars α] (n : Nat) : List (Option α) :=
  (List.range n).map (fun _ => Exemplars.exemplar α)

/-- A hypothetical implementing type that violates the trait's non-emptiness
contract (the crate itself contains no such implementation); used to exhibit
the abort branch of `exemplar()`. -/
structure EmptyTy where
deriving DecidableEq

/-- The contract-violating empty implementation for `EmptyTy`. -/
instance : Exemplars EmptyTy where
  exemplars := []


/-! Helper lemmas shared by the claim theorems. -/

lemma unit_exemplars : Exemplars.exemplars (α := Unit) = [()] := rfl

lemma numTy_exemplars (m : Nat) :
    Exemplars.exemplars (α := NumTy m) = (numberExemplars m).map NumTy.mk := rfl

lemma option_exemplars (α : Type) [Exemplars α] :
    Exemplars.exemplars (α := Option α)
      = (Exemplars.exemplars (α := α)).map some ++ [none] := rfl

lemma list_exemplars (α : Type) [Exemplars α] :
    Exemplars.exemplars (α := List α)
      = (Exemplars.exemplars (α := α)).map (fun x => [x]) := rfl

lemma string_exemplars : Exemplars.exemplars (α := String) = ["example"] := rfl

lemma numberMAXConstants_pos : ∀ m ∈ numberMAXConstants, 0 < m := by
  intro m hm
  simp only [numberMAXConstants, usizeMAX, u8MAX, u16MAX, u32MAX, u64MAX, u128MAX,
    i8MAX, i16MAX, i32MAX, i64MAX, i128MAX, List.mem_cons, List.not_mem_nil,
    or_false] at hm
  rcases hm with h | h | h | h | h | h | h | h | h | h | h <;> subst h <;> norm_num

lemma numberExemplars_head? (m : Nat) (h : 0 < m) :
    (numberExemplars m).head? = some 1 := by
  obtain ⟨k, rfl⟩ := Nat.exists_eq_add_of_lt h
  simp [numberExemplars, List.range'_succ]

lemma numberExemplars_mem (m x : Nat) :
    x ∈ numberExemplars m ↔ 1 ≤ x ∧ x ≤ m := by
  simp only [numberExemplars, List.mem_range'_1]
  omega

lemma numberExemplars_ne_nil (m : Nat) (h : 0 < m) : numberExemplars m ≠ [] := by
  apply List.ne_nil_of_length_pos
  simpa [numberExemplars] using h

lemma NumTy.mk_injective (m : Nat) :
    Function.Injective (NumTy.mk : Nat → NumTy m) :=
  fun _ _ h => congrArg NumTy.val h

/-! Claim theorems. -/

/-- C1: every implementation the crate provides yields a non-empty exemplar
sequence: the unit type, each of the eleven integer types, `Option<T>` for
any implementing `T`, `Vec<T>` for any implementing `T` whose own sequence
is non-empty, `String`, and each feature-gated external type. -/
theorem c1_exemplars_nonempty :
    (Exemplars.exemplars (α := Unit) ≠ []) ∧
    (∀ m ∈ numberMAXConstants, Exemplars.exemplars (α := NumTy m) ≠ []) ∧
    (∀ (α : Type) [Exemplars α], Exemplars.exemplars (α := Option α) ≠ []) ∧
    (∀ (α : Type) [Exemplars α], Exemplars.exemplars (α := α) ≠ [] →
      Exemplars.exemplars (α := List α) ≠ []) ∧
    (Exemplars.exemplars (α := String) ≠ []) ∧
    (Exemplars.exemplars (α := BigDecimal03) ≠ []) ∧
    (Exemplars.exemplars (α := BigDecimal04) ≠ []) ∧
    (Exemplars.exemplars (α := Decimal) ≠ []) ∧
    (Exemplars.exemplars (α := Uuid) ≠ []) := by
  refine ⟨by simp [unit_exemplars], ?_, ?_, ?_, by simp [string_exemplars],
    by simp [Exemplars.exemplars], by simp [Exemplars.exemplars],
    by simp [Exemplars.exemplars], by simp [Exemplars.exemplars]⟩
  · intro m hm
    have hpos := numberMAXConstants_pos m hm
    rw [numTy_exemplars]
    simpa using numberExemplars_ne_nil m hpos
  · intro α _
    simp [option_exemplars]
  · intro α _ h
    simpa [list_exemplars] using h

/-- C1 witness: concrete instances of the quantified conjuncts, at `u8` and
at `Vec<()>`. -/
theorem c1_exemplars_nonempty_witness :
    Exemplars.exemplars (α := NumTy u8MAX) ≠ [] ∧
    Exemplars.exemplars (α := List Unit) ≠ [] :=
  ⟨c1_exemplars_nonempty.2.1 u8MAX (by decide),
   c1_exemplars_nonempty.2.2.2.1 Unit (by decide)⟩

/-- C2: for every implementing type, `exemplar()` returns exactly the first
value produced by consuming `exemplars()`; being a plain definition rather
than a per-instance field, it has a single universal implementation that no
instance overrides. -/
theorem c2_exemplar_is_first :
    (∀ (α : Type) [Exemplars α],
      Exemplars.exemplar α = (Exemplars.exemplars (α := α)).head?) ∧
    (∀ (α : Type) [Exemplars α] (h : Exemplars.exemplars (α := α) ≠ []),
      Exemplars.exemplar α = some ((Exemplars.exemplars (α := α)).head h)) :=
  ⟨fun _ _ => rfl, fun _ _ h => List.head?_eq_head h⟩

/-- C2 witness: the second conjunct applied at `u8`, whose first exemplar
is `1`. -/
theorem c2_exemplar_is_first_witness :
    Exemplars.exemplar u8 = some ((Exemplars.exemplars (α := u8)).head (by decide)) :=
  c2_exemplar_is_first.2 u8 (by decide)

/-- C3: every integer instance generated by `impl_for_number_types!` is the
inclusive range from 1 to the type's maximum: its first exemplar is 1 and
every exemplar `x` satisfies `1 ≤ x ≤ MAX`; in particular
`u8::exemplar()` returns 1. -/
theorem c3_integer_ranges :
    (∀ m ∈ numberMAXConstants,
      (Exemplars.exemplars (α := NumTy m)).head? = some ⟨1⟩ ∧
      ∀ x ∈ Exemplars.exemplars (α := NumTy m), 1 ≤ x.val ∧ x.val ≤ m) ∧
    Exemplars.exemplar u8 = some ⟨1⟩ := by
  constructor
  · intro m hm
    have hpos := numberMAXConstants_pos m hm
    constructor
    · rw [numTy_exemplars, List.head?_map, numberExemplars_head? m hpos]
      rfl
    · intro x hx
      rw [numTy_exemplars, List.mem_map] at hx
      obtain ⟨n, hn, rfl⟩ := hx
      exact (numberExemplars_mem m n).mp hn
  · decide

/-- C3 witness: the range description applied at `u8` and evaluated at the
concrete exemplar 255. -/
theorem c3_integer_ranges_witness :
    (Exemplars.exemplars (α := u8)).head? = some ⟨1⟩ ∧
    1 ≤ (NumTy.val (⟨255⟩ : u8)) ∧ (NumTy.val (⟨255⟩ : u8)) ≤ u8MAX :=
  ⟨(c3_integer_ranges.1 u8MAX (by decide)).1,
   (c3_integer_ranges.1 u8MAX (by decide)).2 ⟨255⟩ (by decide)⟩

/-- C4: the exemplar sequence of `Option<T>` is each exemplar of `T`
wrapped in `Some`, in order, followed by exactly one `None`; its primary
exemplar wraps `T`'s primary exemplar; concretely for `u8` the sequence is
`[Some(1), ..., Some(255), None]` with primary `Some(1)`. -/
theorem c4_option_exemplars :
    (∀ (α : Type) [Exemplars α],
      Exemplars.exemplars (α := Option α)
        = (Exemplars.exemplars (α := α)).map some ++ [none]) ∧
    (∀ (α : Type) [Exemplars α] (h : Exemplars.exemplars (α := α) ≠ []),
      Exemplars.exemplar (Option α)
        = some (some ((Exemplars.exemplars (α := α)).head h))) ∧
    Exemplars.exemplars (α := Option u8)
      = (numberExemplars u8MAX).map (fun n => some (NumTy.mk n)) ++ [none] ∧
    Exemplars.exemplar (Option u8) = some (some ⟨1⟩) := by
  refine ⟨fun α _ => rfl, ?_, by decide, by decide⟩
  intro α _ h
  rw [Exemplars.exemplar, option_exemplars,
    List.head?_append_of_ne_nil _ (by simpa using h), List.head?_map,
    List.head?_eq_head h]
  rfl

/-- C4 witness: the primary-exemplar conjunct applied at `u8`. -/
theorem c4_option_exemplars_witness :
    Exemplars.exemplar (Option u8)
      = some (some ((Exemplars.exemplars (α := u8)).head (by decide))) :=
  c4_option_exemplars.2.1 u8 (by decide)

/-- C5: every exemplar of `Vec<T>` is a one-element sequence; the i-th
exemplar of `Vec<T>` is the singleton of the i-th exemplar of `T` (the
sequence is the element-wise singleton image), the primary exemplar of
`Vec<T>` is the singleton of `T`'s primary exemplar, and concretely
`Vec::<u8>::exemplar()` is `[1]`. -/
theorem c5_vec_singletons :
    (∀ (α : Type) [Exemplars α],
      Exemplars.exemplars (α := List α)
        = (Exemplars.exemplars (α := α)).map (fun x => [x])) ∧
    (∀ (α : Type) [Exemplars α], ∀ v ∈ Exemplars.exemplars (α := List α),
      ∃ x, v = [x]) ∧
    (∀ (α : Type) [Exemplars α],
      Exemplars.exemplar (List α) = (Exemplars.exemplar α).map (fun x => [x])) ∧
    Exemplars.exemplar (List u8) = some [⟨1⟩] := by
  refine ⟨fun α _ => rfl, ?_, ?_, by decide⟩
  · intro α _ v hv
    rw [list_exemplars, List.mem_map] at hv
    obtain ⟨x, _, rfl⟩ := hv
    exact ⟨x, rfl⟩
  · intro α _
    rw [Exemplars.exemplar, Exemplars.exemplar, list_exemplars, List.head?_map]

/-- C5 witness: the singleton-shape conjunct applied at `u8` with the
concrete exemplar `[2]`. -/
theorem c5_vec_singletons_witness :
    ∃ x, ([(⟨2⟩ : u8)] : List u8) = [x] :=
  c5_vec_singletons.2.1 u8 [⟨2⟩] (by decide)

/-- C6: `exemplar()` hits its panicking branch (modelled as `none`) exactly
when the underlying exemplar sequence is empty — it never substitutes a
default value — and on a non-empty sequence the abort branch is
unreachable: the call returns the first element. -/
theorem c6_abort_iff_empty :
    (∀ (α : Type) [Exemplars α],
      (Exemplars.exemplar α = none ↔ Exemplars.exemplars (α := α) = [])) ∧
    (∀ (α : Type) [Exemplars α] (h : Exemplars.exemplars (α := α) ≠ []),
      ∃ x, Exemplars.exemplar α = some x ∧ x = (Exemplars.exemplars (α := α)).head h) :=
  ⟨fun _ _ => List.head?_eq_none_iff,
   fun _ _ h => ⟨_, List.head?_eq_head h, rfl⟩⟩

/-- C6 witness: the abort branch fires on the contract-violating empty
implementation, and is unreachable on the unit implementation. -/
theorem c6_abort_iff_empty_witness :
    Exemplars.exemplar EmptyTy = none ∧
    ∃ x, Exemplars.exemplar Unit = some x ∧
      x = (Exemplars.exemplars (α := Unit)).head (by decide) :=
  ⟨(c6_abort_iff_empty.1 EmptyTy).mpr rfl,
   c6_abort_iff_empty.2 Unit (by decide)⟩

/-- C7: the `String` implementation yields exactly one value, the literal
"example", and its primary exemplar is that literal. -/
theorem c7_string_example :
    Exemplars.exemplars (α := String) = ["example"] ∧
    Exemplars.exemplar String = some "example" :=
  ⟨rfl, rfl⟩

/-- C8: each feature-gated external implementation is a single-element
sequence: both `BigDecimal` versions yield only `one()` (which denotes the
rational 1, the multiplicative identity), `rust_decimal::Decimal` yields
only its `ONE` constant (also denoting 1), and `Uuid` yields only `max()`,
its maximum representable value. -/
theorem c8_external_singletons :
    Exemplars.exemplars (α := BigDecimal03) = [BigDecimal03.one] ∧
    BigDecimal03.one.toRat = 1 ∧
    Exemplars.exemplars (α := BigDecimal04) = [BigDecimal04.one] ∧
    BigDecimal04.one.toRat = 1 ∧
    Exemplars.exemplars (α := Decimal) = [Decimal.ONE] ∧
    Decimal.ONE.toRat = 1 ∧
    Exemplars.exemplars (α := Uuid) = [Uuid.max] ∧
    (∀ u : Uuid, u.val ≤ Uuid.max.val) := by
  refine ⟨rfl, by simp [BigDecimal03.toRat, BigDecimal03.one], rfl,
    by simp [BigDecimal04.toRat, BigDecimal04.one], rfl,
    by simp [Decimal.toRat, Decimal.ONE], rfl, ?_⟩
  intro u
  exact Nat.le_sub_one_of_lt u.isLt

/-- C8 witness: the maximality conjunct applied at the concrete identifier
with value 7. -/
theorem c8_external_singletons_witness :
    (Uuid.mk 7 (by norm_num)).val ≤ Uuid.max.val :=
  c8_external_singletons.2.2.2.2.2.2.2 (Uuid.mk 7 (by norm_num))

/-- C9: both operations are deterministic, stateless functions of the type:
a trace of `n` successive calls to `exemplar()` is `n` copies of one value,
so any two calls in any trace return equal results. -/
theorem c9_deterministic :
    (∀ (α : Type) [Exemplars α] (n : Nat),
      repeatedCalls α n = List.replicate n (Exemplars.exemplar α)) ∧
    (∀ (α : Type) [Exemplars α] (n : Nat),
      ∀ r ∈ repeatedCalls α n, ∀ s ∈ repeatedCalls α n, r = s) := by
  have h1 : ∀ (α : Type) [Exemplars α] (n : Nat),
      repeatedCalls α n = List.replicate n (Exemplars.exemplar α) := by
    intro α _ n
    simp [repeatedCalls]
  refine ⟨h1, ?_⟩
  intro α _ n r hr s hs
  rw [h1] at hr hs
  rw [List.eq_of_mem_replicate hr, List.eq_of_mem_replicate hs]

/-- C9 witness: a trace of two calls at the unit type, and equality of two
of its entries. -/
theorem c9_deterministic_witness :
    repeatedCalls Unit 2 = List.replicate 2 (Exemplars.exemplar Unit) ∧
    (some () : Option Unit) = some () :=
  ⟨c9_deterministic.1 Unit 2,
   c9_deterministic.2 Unit 2 (some ()) (by decide) (some ()) (by decide)⟩

/-- C10: every built-in implementation lists pairwise-distinct exemplars:
the leaf sequences (unit, every integer instance, text, the four externals)
contain no duplicates, and the composites preserve distinctness — if `T`'s
sequence has no duplicates then neither do those of `Option<T>` and
`Vec<T>`. -/
theorem c10_distinct :
    (Exemplars.exemplars (α := Unit)).Nodup ∧
    (∀ m : Nat, (Exemplars.exemplars (α := NumTy m)).Nodup) ∧
    (Exemplars.exemplars (α := String)).Nodup ∧
    (Exemplars.exemplars (α := BigDecimal03)).Nodup ∧
    (Exemplars.exemplars (α := BigDecimal04)).Nodup ∧
    (Exemplars.exemplars (α := Decimal)).Nodup ∧
    (Exemplars.exemplars (α := Uuid)).Nodup ∧
    (∀ (α : Type) [Exemplars α], (Exemplars.exemplars (α := α)).Nodup →
      (Exemplars.exemplars (α := Option α)).Nodup) ∧
    (∀ (α : Type) [Exemplars α], (Exemplars.exemplars (α := α)).Nodup →
      (Exemplars.exemplars (α := List α)).Nodup) := by
  refine ⟨by simp [unit_exemplars], ?_, by simp [string_exemplars],
    by simp [Exemplars.exemplars], by simp [Exemplars.exemplars],
    by simp [Exemplars.exemplars], by simp [Exemplars.exemplars], ?_, ?_⟩
  · intro m
    rw [numTy_exemplars]
    exact List.Nodup.map (NumTy.mk_injective m) (List.nodup_range' _ _)
  · intro α _ h
    rw [option_exemplars]
    refine List.Nodup.append (h.map (Option.some_injective α)) (by simp) ?_
    intro a ha hb
    rw [List.mem_singleton] at hb
    subst hb
    rw [List.mem_map] at ha
    obtain ⟨x, _, hx⟩ := ha
    exact Option.noConfusion hx
  · intro α _ h
    rw [list_exemplars]
    exact h.map (fun a b hab => by simpa using hab)

/-- C10 witness: distinctness of the composite sequences at `Option<u8>` and
`Vec<()>`, derived from the leaf conjuncts. -/
theorem c10_distinct_witness :
    (Exemplars.exemplars (α := Option u8)).Nodup ∧
    (Exemplars.exemplars (α := List Unit)).Nodup :=
  ⟨c10_distinct.2.2.2.2.2.2.2.1 u8 (c10_distinct.2.1 u8MAX),
   c10_distinct.2.2.2.2.2.2.2.2 Unit c10_distinct.1⟩
